import Mathlib

/-!
# Checkpoint option mutators of `ctr tasks checkpoint`

A shallow embedding of `cmd/ctr/commands/tasks/checkpoint.go`.

The three mutators `withExit`, `withTrackMem` and `setParentCheckpoint` are Go
closures of type `func(r *containerd.CheckpointTaskInfo) error`.  They write
through pointers, so the embedding passes an explicit state: a heap holding the
allocated option structs together with the request `r`.  A pointer is
`Option Nat` (`none` is the nil pointer, `some a` the address `a`), and a call
either returns an `error` value or panics on a nil-pointer dereference.
-/

namespace options

/-- Modelled from the spec: the struct `CheckpointOptions` of package
`runtime/v2/runc/options` (the modern variant), whose declaration is not part of
the source file; the spec gives it the fields `exit` and `trackMem`.  The
defaults are Go's zero values, so `{ Exit := true }` reads as the composite
literal `CheckpointOptions{Exit: true}`. -/
structure CheckpointOptions where
  Exit : Bool := false
  TrackMem : Bool := false
  deriving DecidableEq, Repr

end options

namespace runctypes

/-- Modelled from the spec: the struct `CheckpointOptions` of package
`runtime/linux/runctypes` (the legacy variant), whose declaration is not part of
the source file; structurally similar to the modern one but a distinct type. -/
structure CheckpointOptions where
  Exit : Bool := false
  TrackMem : Bool := false
  deriving DecidableEq, Repr

end runctypes

namespace digest

/-- The type `Digest` of `go-digest`: a defined type whose underlying type is
`string`.  The conversion `digest.Digest(s)` is the constructor; it keeps the
bytes of `s` and validates nothing. -/
structure Digest where
  str : String
  deriving DecidableEq, Repr

end digest

/-- A Go pointer: `none` is nil, `some a` is the address `a` in the heap region
of the pointer's element type. -/
abbrev Ptr := Option Nat

/-- The heap, one region per struct type, so that a pointer of type
`*options.CheckpointOptions` can only reach an `options.CheckpointOptions`. -/
structure Heap where
  optionsObjs : List options.CheckpointOptions := []
  runctypesObjs : List runctypes.CheckpointOptions := []
  deriving DecidableEq, Repr

/-- A value of the interface type `interface{}`, the type of the field
`Options`: the nil interface, or a dynamic type together with its value. -/
inductive Iface where
  /-- The nil interface value: `r.Options == nil` holds only for this one. -/
  | nil
  /-- Dynamic type `*options.CheckpointOptions` (the pointer may itself be nil). -/
  | optionsPtr (p : Ptr)
  /-- Dynamic type `*runctypes.CheckpointOptions` (the pointer may itself be nil). -/
  | runctypesPtr (p : Ptr)
  /-- Any other dynamic type, named by `dynType`. -/
  | other (dynType : String)
  deriving DecidableEq, Repr

/-- Modelled from the spec: the struct `containerd.CheckpointTaskInfo`, whose
declaration is not part of the source file; the spec's CheckpointRequest with
the polymorphic slot `options` and the reference `parentCheckpoint`, the two
fields the mutators touch. -/
structure CheckpointTaskInfo where
  ParentCheckpoint : digest.Digest
  Options : Iface
  deriving DecidableEq, Repr

/-- The machine state a mutator runs in: the heap and the request `*r`. -/
structure State where
  heap : Heap
  r : CheckpointTaskInfo
  deriving DecidableEq, Repr

/-- The Go `error` interface; `none` is the nil error. -/
abbrev Error := Option String

/-- How a call of a mutator ends: it returns an error value, or it panics with
a nil-pointer dereference.  Both carry the state reached at that point. -/
inductive Outcome where
  | returned (err : Error) (s : State)
  | panicked (s : State)
  deriving DecidableEq, Repr

/-- The comma-ok type assertion `r.Options.(*options.CheckpointOptions)`: the
pointer and the ok flag; on failure the pointer is the zero value nil. -/
def assertOptionsPtr : Iface → Ptr × Bool
  | Iface.optionsPtr p => (p, true)
  | _ => (none, false)

/-- The comma-ok type assertion `r.Options.(*runctypes.CheckpointOptions)`. -/
def assertRunctypesPtr : Iface → Ptr × Bool
  | Iface.runctypesPtr p => (p, true)
  | _ => (none, false)

/-- A field store `p.f = v` through a pointer into a heap region, `upd` being
the field update.  The result is `none` when the store faults: `p` is nil, or
addresses no object (which no Go pointer does). -/
def storeAt {α : Type} (objs : List α) (p : Ptr) (upd : α → α) : Option (List α) :=
  match p with
  | none => none
  | some a =>
    match objs[a]? with
    | none => none
    | some o => some (objs.set a (upd o))

/-- The allocation `&options.CheckpointOptions{...}`: the new heap and the
address of the new object. -/
def Heap.newOptions (h : Heap) (o : options.CheckpointOptions) : Heap × Nat :=
  ({ h with optionsObjs := h.optionsObjs ++ [o] }, h.optionsObjs.length)

/-- The allocation `&runctypes.CheckpointOptions{...}`. -/
def Heap.newRunctypes (h : Heap) (o : runctypes.CheckpointOptions) : Heap × Nat :=
  ({ h with runctypesObjs := h.runctypesObjs ++ [o] }, h.runctypesObjs.length)

/-- The mutator `withExit(rt)`, lines 92-116. -/
def withExit (rt : String) (s : State) : Outcome :=
  if rt = "io.containerd.runc.v1" then
    match s.r.Options with
    | Iface.nil =>
      let (h, a) := s.heap.newOptions { Exit := true }
      Outcome.returned none { heap := h, r := { s.r with Options := Iface.optionsPtr (some a) } }
    | i =>
      let opts := (assertOptionsPtr i).1
      match storeAt s.heap.optionsObjs opts (fun o => { o with Exit := true }) with
      | none => Outcome.panicked s
      | some objs => Outcome.returned none { s with heap := { s.heap with optionsObjs := objs } }
  else
    match s.r.Options with
    | Iface.nil =>
      let (h, a) := s.heap.newRunctypes { Exit := true }
      Outcome.returned none { heap := h, r := { s.r with Options := Iface.runctypesPtr (some a) } }
    | i =>
      let opts := (assertRunctypesPtr i).1
      match storeAt s.heap.runctypesObjs opts (fun o => { o with Exit := true }) with
      | none => Outcome.panicked s
      | some objs => Outcome.returned none { s with heap := { s.heap with runctypesObjs := objs } }

/-- The mutator `withTrackMem(rt)`, lines 118-142.  In the default case the
existing options are asserted to `*options.CheckpointOptions` (line 136), as the
source has it. -/
def withTrackMem (rt : String) (s : State) : Outcome :=
  if rt = "io.containerd.runc.v1" then
    match s.r.Options with
    | Iface.nil =>
      let (h, a) := s.heap.newOptions { TrackMem := true }
      Outcome.returned none { heap := h, r := { s.r with Options := Iface.optionsPtr (some a) } }
    | i =>
      let opts := (assertOptionsPtr i).1
      match storeAt s.heap.optionsObjs opts (fun o => { o with TrackMem := true }) with
      | none => Outcome.panicked s
      | some objs => Outcome.returned none { s with heap := { s.heap with optionsObjs := objs } }
  else
    match s.r.Options with
    | Iface.nil =>
      let (h, a) := s.heap.newRunctypes { TrackMem := true }
      Outcome.returned none { heap := h, r := { s.r with Options := Iface.runctypesPtr (some a) } }
    | i =>
      let opts := (assertOptionsPtr i).1
      match storeAt s.heap.optionsObjs opts (fun o => { o with TrackMem := true }) with
      | none => Outcome.panicked s
      | some objs => Outcome.returned none { s with heap := { s.heap with optionsObjs := objs } }

/-- The mutator `setParentCheckpoint(checkpoint)`, lines 144-150. -/
def setParentCheckpoint (checkpoint : String) (s : State) : Outcome :=
  let digest := digest.Digest.mk checkpoint
  Outcome.returned none { s with r := { s.r with ParentCheckpoint := digest } }

/-! ## Observations used to state the properties -/

/-- The two shapes of runtime options. -/
inductive Variant where
  | modern
  | legacy
  deriving DecidableEq, Repr

/-- The shape the spec assigns to a runtime identifier (its `resolveVariant`,
section 4.1): modern for the recognised identifier, legacy for all others. -/
def resolveVariant (rt : String) : Variant :=
  if rt = "io.containerd.runc.v1" then Variant.modern else Variant.legacy

/-- A view of the options instance a request holds: its variant type, its
address, and the values of its two fields. -/
structure Instance where
  variant : Variant
  addr : Nat
  Exit : Bool
  TrackMem : Bool
  deriving DecidableEq, Repr

/-- The options instance the request of a state holds, if any: the slot must
carry a non-nil pointer of one of the two variant types, read through the heap. -/
def State.inst (s : State) : Option Instance :=
  match s.r.Options with
  | Iface.optionsPtr (some a) =>
    (s.heap.optionsObjs[a]?).map (fun o => Instance.mk Variant.modern a o.Exit o.TrackMem)
  | Iface.runctypesPtr (some a) =>
    (s.heap.runctypesObjs[a]?).map (fun o => Instance.mk Variant.legacy a o.Exit o.TrackMem)
  | _ => none

/-- The number of option structs allocated in a heap, both variants counted. -/
def Heap.count (h : Heap) : Nat :=
  h.optionsObjs.length + h.runctypesObjs.length

/-- The empty request of the spec (`Options = nil`, no parent checkpoint) in a
heap `h`. -/
def emptyRequest (h : Heap) : State :=
  { heap := h, r := { ParentCheckpoint := digest.Digest.mk "", Options := Iface.nil } }

/-! ## The command action -/

/-- The type `containerd.CheckpointTaskOpts`, a function
`func(r *CheckpointTaskInfo) error`: here a function of the state. -/
abbrev CheckpointTaskOpts := State → Outcome

/-- What the action reads from its `*cli.Context`: the positional arguments
(`context.Args()`), the string flag `runtime`, the bool flags `exit` and
`track-mem`, and the string flag `parent-checkpoint`. -/
structure Context where
  args : List String := []
  runtime : String := ""
  exit : Bool := false
  trackMem : Bool := false
  parentCheckpoint : String := ""

/-- The call `context.Args().First()`: the first argument, or the empty string
when there is none. -/
def Context.first (context : Context) : String :=
  context.args.headD ""

/-- The external collaborators of the action, taken as parameters: client
creation (with the default runtime), container load, task lookup, info lookup
(of which the action reads `info.Runtime.Name` only), the task's checkpoint
operation and the name of the image it returns.  Each one gives a value or an
error, as the Go calls give `(value, err)`. -/
structure Collaborators (Client Container TaskT Image : Type) where
  NewClient : String → Except String Client
  LoadContainer : Client → String → Except String Container
  Task : Container → Except String TaskT
  Info : Container → Except String String
  Checkpoint : TaskT → List CheckpointTaskOpts → Except String Image
  Name : Image → String

/-- A step of the action that is visible outside it, with the arguments it
passes; `cancel` is the deferred call, `Println` the printed line. -/
inductive Call where
  | NewClient (runtime : String)
  | LoadContainer (id : String)
  | Task
  | Info
  | Checkpoint (opts : List CheckpointTaskOpts)
  | Println (line : String)
  | cancel

/-- Whether a step is the invocation of the task's checkpoint operation. -/
def Call.isCheckpoint : Call → Bool
  | Call.Checkpoint _ => true
  | _ => false

/-- The list of mutators the action builds, lines 72-81, from the flags and the
runtime name of the container's info. -/
def buildOpts (context : Context) (rtName : String) : List CheckpointTaskOpts :=
  let opts : List CheckpointTaskOpts := []
  let opts := if context.exit then opts ++ [withExit rtName] else opts
  let opts := if context.trackMem then opts ++ [withTrackMem rtName] else opts
  let opts :=
    if context.parentCheckpoint ≠ "" then opts ++ [setParentCheckpoint context.parentCheckpoint]
    else opts
  opts

/-- The action of `checkpointCommand`, lines 50-89: the steps it performs, in
order, and the error it returns.  The deferred `cancel()` runs on every return
after the client was created. -/
def checkpointCommand.Action {Client Container TaskT Image : Type}
    (env : Collaborators Client Container TaskT Image) (context : Context) :
    List Call × Error :=
  let id := context.first
  if id = "" then
    ([], some "container id must be provided")
  else
    match env.NewClient context.runtime with
    | Except.error err => ([Call.NewClient context.runtime], some err)
    | Except.ok client =>
      let tr := [Call.NewClient context.runtime, Call.LoadContainer id]
      match env.LoadContainer client id with
      | Except.error err => (tr ++ [Call.cancel], some err)
      | Except.ok container =>
        let tr := tr ++ [Call.Task]
        match env.Task container with
        | Except.error err => (tr ++ [Call.cancel], some err)
        | Except.ok task =>
          let tr := tr ++ [Call.Info]
          match env.Info container with
          | Except.error err => (tr ++ [Call.cancel], some err)
          | Except.ok rtName =>
            let opts := buildOpts context rtName
            let tr := tr ++ [Call.Checkpoint opts]
            match env.Checkpoint task opts with
            | Except.error err => (tr ++ [Call.cancel], some err)
            | Except.ok checkpoint =>
              (tr ++ [Call.Println (env.Name checkpoint), Call.cancel], none)

/-- Modelled from the spec: the builder of section 4.4, the loop of the task's
checkpoint operation, which is not part of the source file.  It applies the
mutators in the order supplied to the request; the first one to fail (a non-nil
error, or a panic) ends the run with that outcome. -/
def applyOpts : List CheckpointTaskOpts → State → Outcome
  | [], s => Outcome.returned none s
  | o :: os, s =>
    match o s with
    | Outcome.returned none s' => applyOpts os s'
    | Outcome.returned (some e) s' => Outcome.returned (some e) s'
    | Outcome.panicked s' => Outcome.panicked s'

/-- The pointer in the options slot, when it is not nil, addresses an object of
its type in the heap, as every Go pointer does. -/
def State.wellFormed (s : State) : Bool :=
  match s.r.Options with
  | Iface.optionsPtr (some a) => decide (a < s.heap.optionsObjs.length)
  | Iface.runctypesPtr (some a) => decide (a < s.heap.runctypesObjs.length)
  | _ => true

/-- Collaborators that all succeed: the container's runtime is the modern one
and the checkpoint image is named "img". -/
def succeedingEnv : Collaborators Unit Unit Unit Unit where
  NewClient := fun _ => Except.ok ()
  LoadContainer := fun _ _ => Except.ok ()
  Task := fun _ => Except.ok ()
  Info := fun _ => Except.ok "io.containerd.runc.v1"
  Checkpoint := fun _ _ => Except.ok ()
  Name := fun _ => "img"

/-- Collaborators of which the task's checkpoint operation fails with the
error "criu failed", the others succeeding. -/
def failingCheckpointEnv : Collaborators Unit Unit Unit Unit where
  NewClient := fun _ => Except.ok ()
  LoadContainer := fun _ _ => Except.ok ()
  Task := fun _ => Except.ok ()
  Info := fun _ => Except.ok "io.containerd.runc.v1"
  Checkpoint := fun _ _ => Except.error "criu failed"
  Name := fun _ => "img"

/-! ## Case lemmas for the mutators -/

/-- Reading the instance of a state back: the slot holds a non-nil pointer of
one of the two variant types, and the heap has an object at its address. -/
theorem State.inst_eq_some {s : State} {i : Instance} (h : s.inst = some i) :
    (∃ a o, s.r.Options = Iface.optionsPtr (some a) ∧ s.heap.optionsObjs[a]? = some o ∧
        i = Instance.mk Variant.modern a o.Exit o.TrackMem) ∨
    (∃ a o, s.r.Options = Iface.runctypesPtr (some a) ∧ s.heap.runctypesObjs[a]? = some o ∧
        i = Instance.mk Variant.legacy a o.Exit o.TrackMem) := by
  obtain ⟨hp, pc, opt⟩ := s
  cases opt with
  | nil => simp [State.inst] at h
  | other t => simp [State.inst] at h
  | optionsPtr p =>
    cases p with
    | none => simp [State.inst] at h
    | some a =>
      left
      simp only [State.inst, Option.map_eq_some'] at h
      obtain ⟨o, ho, hi⟩ := h
      exact ⟨a, o, rfl, ho, hi.symm⟩
  | runctypesPtr p =>
    cases p with
    | none => simp [State.inst] at h
    | some a =>
      right
      simp only [State.inst, Option.map_eq_some'] at h
      obtain ⟨o, ho, hi⟩ := h
      exact ⟨a, o, rfl, ho, hi.symm⟩

/-- A store through a pointer that addresses an object succeeds. -/
theorem storeAt_some {α : Type} (objs : List α) (a : Nat) (o : α) (upd : α → α)
    (h : objs[a]? = some o) : storeAt objs (some a) upd = some (objs.set a (upd o)) := by
  simp [storeAt, h]

/-- A store through the nil pointer faults. -/
theorem storeAt_nil {α : Type} (objs : List α) (upd : α → α) :
    storeAt objs none upd = none := rfl

/-- Reading back the object just stored. -/
theorem getElem?_set_of_some {α : Type} (objs : List α) (a : Nat) (o x : α)
    (h : objs[a]? = some o) : (objs.set a x)[a]? = some x := by
  have hlt : a < objs.length := by
    rcases Nat.lt_or_ge a objs.length with hl | hl
    · exact hl
    · rw [List.getElem?_eq_none hl] at h
      cases h
  simp [List.getElem?_set, hlt]

/-- On an empty slot `withExit` allocates one struct of the variant of `rt`. -/
theorem withExit_empty (rt : String) (h : Heap) (pc : digest.Digest) :
    withExit rt { heap := h, r := { ParentCheckpoint := pc, Options := Iface.nil } } =
      if rt = "io.containerd.runc.v1" then
        Outcome.returned none
          { heap := { h with optionsObjs := h.optionsObjs ++ [{ Exit := true }] },
            r := { ParentCheckpoint := pc, Options := Iface.optionsPtr (some h.optionsObjs.length) } }
      else
        Outcome.returned none
          { heap := { h with runctypesObjs := h.runctypesObjs ++ [{ Exit := true }] },
            r := { ParentCheckpoint := pc, Options := Iface.runctypesPtr (some h.runctypesObjs.length) } } := by
  unfold withExit
  split_ifs <;> rfl

/-- On an empty slot `withTrackMem` allocates one struct of the variant of `rt`. -/
theorem withTrackMem_empty (rt : String) (h : Heap) (pc : digest.Digest) :
    withTrackMem rt { heap := h, r := { ParentCheckpoint := pc, Options := Iface.nil } } =
      if rt = "io.containerd.runc.v1" then
        Outcome.returned none
          { heap := { h with optionsObjs := h.optionsObjs ++ [{ TrackMem := true }] },
            r := { ParentCheckpoint := pc, Options := Iface.optionsPtr (some h.optionsObjs.length) } }
      else
        Outcome.returned none
          { heap := { h with runctypesObjs := h.runctypesObjs ++ [{ TrackMem := true }] },
            r := { ParentCheckpoint := pc, Options := Iface.runctypesPtr (some h.runctypesObjs.length) } } := by
  unfold withTrackMem
  split_ifs <;> rfl

/-- With the modern identifier and a modern instance in the slot, `withExit`
stores into that instance. -/
theorem withExit_modern_on_modern (s : State) (a : Nat) (o : options.CheckpointOptions)
    (hp : s.r.Options = Iface.optionsPtr (some a)) (ho : s.heap.optionsObjs[a]? = some o) :
    withExit "io.containerd.runc.v1" s =
      Outcome.returned none
        { s with heap := { s.heap with optionsObjs := s.heap.optionsObjs.set a { o with Exit := true } } } := by
  obtain ⟨hp0, pc, opt⟩ := s
  simp only at hp ho
  subst hp
  simp [withExit, assertOptionsPtr, storeAt_some _ _ _ _ ho]

/-- With any other identifier and a legacy instance in the slot, `withExit`
stores into that instance. -/
theorem withExit_legacy_on_legacy (rt : String) (hrt : rt ≠ "io.containerd.runc.v1") (s : State)
    (a : Nat) (o : runctypes.CheckpointOptions)
    (hp : s.r.Options = Iface.runctypesPtr (some a)) (ho : s.heap.runctypesObjs[a]? = some o) :
    withExit rt s =
      Outcome.returned none
        { s with heap := { s.heap with runctypesObjs := s.heap.runctypesObjs.set a { o with Exit := true } } } := by
  obtain ⟨hp0, pc, opt⟩ := s
  simp only at hp ho
  subst hp
  simp [withExit, hrt, assertRunctypesPtr, storeAt_some _ _ _ _ ho]

/-- With a modern instance in the slot, `withTrackMem` stores into that
instance, whatever the identifier: both of its cases assert the modern type. -/
theorem withTrackMem_on_modern (rt : String) (s : State) (a : Nat) (o : options.CheckpointOptions)
    (hp : s.r.Options = Iface.optionsPtr (some a)) (ho : s.heap.optionsObjs[a]? = some o) :
    withTrackMem rt s =
      Outcome.returned none
        { s with heap := { s.heap with optionsObjs := s.heap.optionsObjs.set a { o with TrackMem := true } } } := by
  obtain ⟨hp0, pc, opt⟩ := s
  simp only at hp ho
  subst hp
  unfold withTrackMem
  split_ifs <;> simp [assertOptionsPtr, storeAt_some _ _ _ _ ho]

/-- With an identifier other than the modern one and a pointer to a legacy
struct in the slot, `withTrackMem` panics: the assertion of line 136 names the
modern type, fails, and the store goes through the nil pointer. -/
theorem withTrackMem_legacy_on_legacy (rt : String) (hrt : rt ≠ "io.containerd.runc.v1")
    (s : State) (p : Ptr) (hp : s.r.Options = Iface.runctypesPtr p) :
    withTrackMem rt s = Outcome.panicked s := by
  obtain ⟨hp0, pc, opt⟩ := s
  simp only at hp
  subst hp
  simp [withTrackMem, hrt, assertOptionsPtr, storeAt_nil]

/-- With the modern identifier and a pointer to a legacy struct in the slot,
both flag mutators panic. -/
theorem modern_on_legacy_panics (s : State) (p : Ptr) (hp : s.r.Options = Iface.runctypesPtr p) :
    withExit "io.containerd.runc.v1" s = Outcome.panicked s ∧
    withTrackMem "io.containerd.runc.v1" s = Outcome.panicked s := by
  obtain ⟨hp0, pc, opt⟩ := s
  simp only at hp
  subst hp
  simp [withExit, withTrackMem, assertOptionsPtr, storeAt_nil]

/-- With an identifier other than the modern one and a pointer to a modern
struct in the slot, `withExit` panics. -/
theorem withExit_legacy_on_modern_panics (rt : String) (hrt : rt ≠ "io.containerd.runc.v1")
    (s : State) (p : Ptr) (hp : s.r.Options = Iface.optionsPtr p) :
    withExit rt s = Outcome.panicked s := by
  obtain ⟨hp0, pc, opt⟩ := s
  simp only at hp
  subst hp
  simp [withExit, hrt, assertRunctypesPtr, storeAt_nil]

/-! ## The claims -/

/-- C1 (code defect): for the legacy identifier "io.containerd.runtime.v1.linux",
`withExit` on the empty request returns with one legacy struct `{Exit: true}`,
and `withTrackMem` applied next panics instead of setting `TrackMem`: the
request never holds an instance with both fields true. -/
theorem exit_then_trackMem_legacy_panics :
    withExit "io.containerd.runtime.v1.linux" (emptyRequest {}) =
      Outcome.returned none
        { heap := { runctypesObjs := [{ Exit := true }] },
          r := { ParentCheckpoint := ⟨""⟩, Options := Iface.runctypesPtr (some 0) } } ∧
    withTrackMem "io.containerd.runtime.v1.linux"
        { heap := { runctypesObjs := [{ Exit := true }] },
          r := { ParentCheckpoint := ⟨""⟩, Options := Iface.runctypesPtr (some 0) } } =
      Outcome.panicked
        { heap := { runctypesObjs := [{ Exit := true }] },
          r := { ParentCheckpoint := ⟨""⟩, Options := Iface.runctypesPtr (some 0) } } := by
  decide

/-- C2: on an empty request, in any heap, each of `withExit rt` and
`withTrackMem rt` returns the nil error and leaves an instance in the slot that
is of the modern variant exactly when `rt` is "io.containerd.runc.v1", and of
the legacy variant for every other string. -/
theorem empty_request_variant_dispatch (rt : String) (h : Heap) (pc : digest.Digest) :
    (∃ s' i, withExit rt { heap := h, r := { ParentCheckpoint := pc, Options := Iface.nil } } =
        Outcome.returned none s' ∧ s'.inst = some i ∧
      (i.variant = Variant.modern ↔ rt = "io.containerd.runc.v1") ∧
      (rt ≠ "io.containerd.runc.v1" → i.variant = Variant.legacy)) ∧
    (∃ s' i, withTrackMem rt { heap := h, r := { ParentCheckpoint := pc, Options := Iface.nil } } =
        Outcome.returned none s' ∧ s'.inst = some i ∧
      (i.variant = Variant.modern ↔ rt = "io.containerd.runc.v1") ∧
      (rt ≠ "io.containerd.runc.v1" → i.variant = Variant.legacy)) := by
  rw [withExit_empty, withTrackMem_empty]
  by_cases hrt : rt = "io.containerd.runc.v1"
  · simp [hrt, State.inst]
  · simp [hrt, State.inst]

/-- C3 (code defect): for the legacy identifier "io.containerd.runtime.v1.linux"
and a request holding a legacy instance, the shape that matches it,
`withTrackMem` panics and `TrackMem` stays false. -/
theorem trackMem_on_matching_legacy_panics :
    State.inst { heap := { runctypesObjs := [{}] },
                 r := { ParentCheckpoint := ⟨""⟩, Options := Iface.runctypesPtr (some 0) } } =
      some { variant := resolveVariant "io.containerd.runtime.v1.linux", addr := 0,
             Exit := false, TrackMem := false } ∧
    withTrackMem "io.containerd.runtime.v1.linux"
        { heap := { runctypesObjs := [{}] },
          r := { ParentCheckpoint := ⟨""⟩, Options := Iface.runctypesPtr (some 0) } } =
      Outcome.panicked
        { heap := { runctypesObjs := [{}] },
          r := { ParentCheckpoint := ⟨""⟩, Options := Iface.runctypesPtr (some 0) } } := by
  decide

/-- C4: when the request holds an instance of the shape that matches `rt`,
`withExit rt` returns the nil error, the request (slot and parent checkpoint)
is the same, and the instance read back is the same one (same variant, same
address, same `TrackMem`) with `Exit` true; no struct is allocated. -/
theorem withExit_on_matching (rt : String) (s : State) (i : Instance)
    (hi : s.inst = some i) (hm : i.variant = resolveVariant rt) :
    ∃ s', withExit rt s = Outcome.returned none s' ∧ s'.r = s.r ∧
      s'.inst = some { i with Exit := true } ∧ s'.heap.count = s.heap.count := by
  by_cases hrt : rt = "io.containerd.runc.v1"
  · rcases State.inst_eq_some hi with ⟨a, o, hp, ho, rfl⟩ | ⟨a, o, hp, ho, rfl⟩
    · subst hrt
      refine ⟨_, withExit_modern_on_modern s a o hp ho, rfl, ?_, ?_⟩
      · simp [State.inst, hp, getElem?_set_of_some _ _ _ _ ho]
      · simp [Heap.count]
    · simp [resolveVariant, hrt] at hm
  · rcases State.inst_eq_some hi with ⟨a, o, hp, ho, rfl⟩ | ⟨a, o, hp, ho, rfl⟩
    · simp [resolveVariant, hrt] at hm
    · refine ⟨_, withExit_legacy_on_legacy rt hrt s a o hp ho, rfl, ?_, ?_⟩
      · simp [State.inst, hp, getElem?_set_of_some _ _ _ _ ho]
      · simp [Heap.count]

/-- Witness of C4: a modern instance with `TrackMem` set, and the modern
identifier. -/
theorem withExit_on_matching_witness :
    State.inst { heap := { optionsObjs := [{ TrackMem := true }] },
                 r := { ParentCheckpoint := ⟨""⟩, Options := Iface.optionsPtr (some 0) } } =
      some { variant := Variant.modern, addr := 0, Exit := false, TrackMem := true } ∧
    Variant.modern = resolveVariant "io.containerd.runc.v1" ∧
    ∃ s', withExit "io.containerd.runc.v1"
        { heap := { optionsObjs := [{ TrackMem := true }] },
          r := { ParentCheckpoint := ⟨""⟩, Options := Iface.optionsPtr (some 0) } } =
        Outcome.returned none s' ∧
      s'.r = { ParentCheckpoint := ⟨""⟩, Options := Iface.optionsPtr (some 0) } ∧
      s'.inst = some { variant := Variant.modern, addr := 0, Exit := true, TrackMem := true } ∧
      s'.heap.count = 1 :=
  ⟨by decide, by decide,
    withExit_on_matching "io.containerd.runc.v1"
      { heap := { optionsObjs := [{ TrackMem := true }] },
        r := { ParentCheckpoint := ⟨""⟩, Options := Iface.optionsPtr (some 0) } }
      { variant := Variant.modern, addr := 0, Exit := false, TrackMem := true }
      (by decide) (by decide)⟩

/-- C5: on an empty request, in any heap, a single flag mutator allocates
exactly one struct, of the variant of `rt`, in which only the intended field is
set: `withExit rt` gives `Exit` true and `TrackMem` false, `withTrackMem rt`
gives `TrackMem` true and `Exit` false.  Scenarios A and C are instances. -/
theorem single_mutator_on_empty (rt : String) (h : Heap) (pc : digest.Digest) :
    (∃ s' a, withExit rt { heap := h, r := { ParentCheckpoint := pc, Options := Iface.nil } } =
        Outcome.returned none s' ∧
      s'.inst = some { variant := resolveVariant rt, addr := a, Exit := true, TrackMem := false } ∧
      s'.heap.count = h.count + 1) ∧
    (∃ s' a, withTrackMem rt { heap := h, r := { ParentCheckpoint := pc, Options := Iface.nil } } =
        Outcome.returned none s' ∧
      s'.inst = some { variant := resolveVariant rt, addr := a, Exit := false, TrackMem := true } ∧
      s'.heap.count = h.count + 1) ∧
    (∃ s', withExit "io.containerd.runc.v1" (emptyRequest {}) = Outcome.returned none s' ∧
      s'.inst = some { variant := Variant.modern, addr := 0, Exit := true, TrackMem := false }) ∧
    (∃ s', withTrackMem "some-other-runtime" (emptyRequest {}) = Outcome.returned none s' ∧
      s'.inst = some { variant := Variant.legacy, addr := 0, Exit := false, TrackMem := true }) := by
  refine ⟨?_, ?_, ⟨_, rfl, by decide⟩, ⟨_, rfl, by decide⟩⟩
  · rw [withExit_empty]
    by_cases hrt : rt = "io.containerd.runc.v1"
    · simp [hrt, State.inst, resolveVariant, Heap.count]; omega
    · simp [hrt, State.inst, resolveVariant, Heap.count]; omega
  · rw [withTrackMem_empty]
    by_cases hrt : rt = "io.containerd.runc.v1"
    · simp [hrt, State.inst, resolveVariant, Heap.count]; omega
    · simp [hrt, State.inst, resolveVariant, Heap.count]; omega

/-- C6 (code defect): for the legacy identifier "io.containerd.runtime.v1.linux",
`withTrackMem` on the empty request returns with one legacy struct
`{TrackMem: true}`, and the same mutator applied a second time panics, so
applying it twice does not complete. -/
theorem trackMem_twice_legacy_panics :
    withTrackMem "io.containerd.runtime.v1.linux" (emptyRequest {}) =
      Outcome.returned none
        { heap := { runctypesObjs := [{ TrackMem := true }] },
          r := { ParentCheckpoint := ⟨""⟩, Options := Iface.runctypesPtr (some 0) } } ∧
    withTrackMem "io.containerd.runtime.v1.linux"
        { heap := { runctypesObjs := [{ TrackMem := true }] },
          r := { ParentCheckpoint := ⟨""⟩, Options := Iface.runctypesPtr (some 0) } } =
      Outcome.panicked
        { heap := { runctypesObjs := [{ TrackMem := true }] },
          r := { ParentCheckpoint := ⟨""⟩, Options := Iface.runctypesPtr (some 0) } } := by
  decide

/-- C7 (counterexample): with the modern identifier and a request holding a
legacy instance, a shape that does not match, `withExit` does not return
normally with the request unchanged: it panics, and returns nothing at all. -/
theorem mismatch_not_absorbed :
    State.inst { heap := { runctypesObjs := [{}] },
                 r := { ParentCheckpoint := ⟨""⟩, Options := Iface.runctypesPtr (some 0) } } =
      some { variant := Variant.legacy, addr := 0, Exit := false, TrackMem := false } ∧
    resolveVariant "io.containerd.runc.v1" = Variant.modern ∧
    withExit "io.containerd.runc.v1"
        { heap := { runctypesObjs := [{}] },
          r := { ParentCheckpoint := ⟨""⟩, Options := Iface.runctypesPtr (some 0) } } ≠
      Outcome.returned none
        { heap := { runctypesObjs := [{}] },
          r := { ParentCheckpoint := ⟨""⟩, Options := Iface.runctypesPtr (some 0) } } ∧
    ¬ ∃ e s', withExit "io.containerd.runc.v1"
        { heap := { runctypesObjs := [{}] },
          r := { ParentCheckpoint := ⟨""⟩, Options := Iface.runctypesPtr (some 0) } } =
      Outcome.returned e s' := by
  refine ⟨by decide, by decide, by decide, ?_⟩
  rintro ⟨e, s', h⟩
  have hp : withExit "io.containerd.runc.v1"
      { heap := { runctypesObjs := [{}] },
        r := { ParentCheckpoint := ⟨""⟩, Options := Iface.runctypesPtr (some 0) } } =
      Outcome.panicked
        { heap := { runctypesObjs := [{}] },
          r := { ParentCheckpoint := ⟨""⟩, Options := Iface.runctypesPtr (some 0) } } := by
    decide
  rw [hp] at h
  cases h

/-- C7 (amended): when the request holds an instance of the shape that does not
match `rt`, `withExit rt` panics on the nil pointer the failed assertion
leaves, with the state as it was (no field updated, no error value returned);
so does `withTrackMem rt` when `rt` is the modern identifier. -/
theorem mismatch_panics (rt : String) (s : State) (i : Instance)
    (hi : s.inst = some i) (hm : i.variant ≠ resolveVariant rt) :
    withExit rt s = Outcome.panicked s ∧
    (rt = "io.containerd.runc.v1" → withTrackMem rt s = Outcome.panicked s) := by
  by_cases hrt : rt = "io.containerd.runc.v1"
  · rcases State.inst_eq_some hi with ⟨a, o, hp, ho, rfl⟩ | ⟨a, o, hp, ho, rfl⟩
    · simp [resolveVariant, hrt] at hm
    · subst hrt
      exact ⟨(modern_on_legacy_panics s _ hp).1, fun _ => (modern_on_legacy_panics s _ hp).2⟩
  · rcases State.inst_eq_some hi with ⟨a, o, hp, ho, rfl⟩ | ⟨a, o, hp, ho, rfl⟩
    · exact ⟨withExit_legacy_on_modern_panics rt hrt s _ hp, fun h => absurd h hrt⟩
    · simp [resolveVariant, hrt] at hm

/-- Witness of C7 (amended): a legacy instance `{Exit: false, TrackMem: true}`
and the modern identifier. -/
theorem mismatch_panics_witness :
    State.inst { heap := { runctypesObjs := [{ TrackMem := true }] },
                 r := { ParentCheckpoint := ⟨"sha256:abc123"⟩, Options := Iface.runctypesPtr (some 0) } } =
      some { variant := Variant.legacy, addr := 0, Exit := false, TrackMem := true } ∧
    Variant.legacy ≠ resolveVariant "io.containerd.runc.v1" ∧
    withExit "io.containerd.runc.v1"
        { heap := { runctypesObjs := [{ TrackMem := true }] },
          r := { ParentCheckpoint := ⟨"sha256:abc123"⟩, Options := Iface.runctypesPtr (some 0) } } =
      Outcome.panicked
        { heap := { runctypesObjs := [{ TrackMem := true }] },
          r := { ParentCheckpoint := ⟨"sha256:abc123"⟩, Options := Iface.runctypesPtr (some 0) } } ∧
    ("io.containerd.runc.v1" = "io.containerd.runc.v1" →
      withTrackMem "io.containerd.runc.v1"
        { heap := { runctypesObjs := [{ TrackMem := true }] },
          r := { ParentCheckpoint := ⟨"sha256:abc123"⟩, Options := Iface.runctypesPtr (some 0) } } =
      Outcome.panicked
        { heap := { runctypesObjs := [{ TrackMem := true }] },
          r := { ParentCheckpoint := ⟨"sha256:abc123"⟩, Options := Iface.runctypesPtr (some 0) } }) :=
  ⟨by decide, by decide,
    mismatch_panics "io.containerd.runc.v1"
      { heap := { runctypesObjs := [{ TrackMem := true }] },
        r := { ParentCheckpoint := ⟨"sha256:abc123"⟩, Options := Iface.runctypesPtr (some 0) } }
      { variant := Variant.legacy, addr := 0, Exit := false, TrackMem := true }
      (by decide) (by decide)⟩

/-- C8: for every string and every request, `setParentCheckpoint` returns the
nil error and leaves `ParentCheckpoint` holding exactly that string, whatever
it is; the options slot and the heap are as before.  Scenario D is the
instance at "sha256:abc123". -/
theorem setParentCheckpoint_stores_verbatim (c : String) (s : State) :
    (∃ s', setParentCheckpoint c s = Outcome.returned none s' ∧
      s'.r.ParentCheckpoint.str = c ∧ s'.r.Options = s.r.Options ∧ s'.heap = s.heap) ∧
    (∃ s', setParentCheckpoint "sha256:abc123" (emptyRequest {}) = Outcome.returned none s' ∧
      s'.r.ParentCheckpoint.str = "sha256:abc123") :=
  ⟨⟨_, rfl, rfl, rfl, rfl⟩, ⟨_, rfl, rfl⟩⟩

/-- C9: when the request holds an instance of either variant and any of the
three mutators returns, the slot is the very same interface value as before,
and the instance read back has the same variant type and the same address. -/
theorem variant_type_preserved (m : State → Outcome) (s s' : State) (e : Error) (i : Instance)
    (hm : (∃ rt, m = withExit rt) ∨ (∃ rt, m = withTrackMem rt) ∨
      (∃ c, m = setParentCheckpoint c))
    (hi : s.inst = some i) (hret : m s = Outcome.returned e s') :
    s'.r.Options = s.r.Options ∧
    ∃ i', s'.inst = some i' ∧ i'.variant = i.variant ∧ i'.addr = i.addr := by
  rcases hm with ⟨rt, rfl⟩ | ⟨rt, rfl⟩ | ⟨c, rfl⟩
  · by_cases hrt : rt = "io.containerd.runc.v1"
    · subst hrt
      rcases State.inst_eq_some hi with ⟨a, o, hp, ho, rfl⟩ | ⟨a, o, hp, ho, rfl⟩
      · rw [withExit_modern_on_modern s a o hp ho] at hret
        injection hret with _ hs
        subst hs
        refine ⟨rfl, ?_⟩
        simp [State.inst, hp, getElem?_set_of_some _ _ _ _ ho]
      · rw [(modern_on_legacy_panics s _ hp).1] at hret
        cases hret
    · rcases State.inst_eq_some hi with ⟨a, o, hp, ho, rfl⟩ | ⟨a, o, hp, ho, rfl⟩
      · rw [withExit_legacy_on_modern_panics rt hrt s _ hp] at hret
        cases hret
      · rw [withExit_legacy_on_legacy rt hrt s a o hp ho] at hret
        injection hret with _ hs
        subst hs
        refine ⟨rfl, ?_⟩
        simp [State.inst, hp, getElem?_set_of_some _ _ _ _ ho]
  · rcases State.inst_eq_some hi with ⟨a, o, hp, ho, rfl⟩ | ⟨a, o, hp, ho, rfl⟩
    · rw [withTrackMem_on_modern rt s a o hp ho] at hret
      injection hret with _ hs
      subst hs
      refine ⟨rfl, ?_⟩
      simp [State.inst, hp, getElem?_set_of_some _ _ _ _ ho]
    · by_cases hrt : rt = "io.containerd.runc.v1"
      · subst hrt
        rw [(modern_on_legacy_panics s _ hp).2] at hret
        cases hret
      · rw [withTrackMem_legacy_on_legacy rt hrt s _ hp] at hret
        cases hret
  · simp only [setParentCheckpoint] at hret
    injection hret with _ hs
    subst hs
    exact ⟨rfl, i, hi, rfl, rfl⟩

/-- Witness of C9: `withExit` with the modern identifier on a request holding a
modern instance. -/
theorem variant_type_preserved_witness :
    ((∃ rt, withExit "io.containerd.runc.v1" = withExit rt) ∨
      (∃ rt, withExit "io.containerd.runc.v1" = withTrackMem rt) ∨
      (∃ c, withExit "io.containerd.runc.v1" = setParentCheckpoint c)) ∧
    State.inst { heap := { optionsObjs := [{}] },
                 r := { ParentCheckpoint := ⟨""⟩, Options := Iface.optionsPtr (some 0) } } =
      some { variant := Variant.modern, addr := 0, Exit := false, TrackMem := false } ∧
    withExit "io.containerd.runc.v1"
        { heap := { optionsObjs := [{}] },
          r := { ParentCheckpoint := ⟨""⟩, Options := Iface.optionsPtr (some 0) } } =
      Outcome.returned none
        { heap := { optionsObjs := [{ Exit := true }] },
          r := { ParentCheckpoint := ⟨""⟩, Options := Iface.optionsPtr (some 0) } } ∧
    (Iface.optionsPtr (some 0) = Iface.optionsPtr (some 0) ∧
      ∃ i', State.inst { heap := { optionsObjs := [{ Exit := true }] },
                         r := { ParentCheckpoint := ⟨""⟩, Options := Iface.optionsPtr (some 0) } } =
          some i' ∧
        i'.variant = Variant.modern ∧ i'.addr = 0) :=
  ⟨Or.inl ⟨_, rfl⟩, by decide, by decide,
    variant_type_preserved (withExit "io.containerd.runc.v1")
      { heap := { optionsObjs := [{}] },
        r := { ParentCheckpoint := ⟨""⟩, Options := Iface.optionsPtr (some 0) } }
      { heap := { optionsObjs := [{ Exit := true }] },
        r := { ParentCheckpoint := ⟨""⟩, Options := Iface.optionsPtr (some 0) } }
      none
      { variant := Variant.modern, addr := 0, Exit := false, TrackMem := false }
      (Or.inl ⟨_, rfl⟩) (by decide) (by decide)⟩

/-- C10 (Scenario B): with the modern identifier, `withExit` and then
`withTrackMem` on an empty request, in any heap, both return the nil error;
the slot keeps the pointer `withExit` stored, the instance is modern with
`Exit` and `TrackMem` both true, and exactly one struct has been allocated. -/
theorem scenario_B_single_modern_instance (h : Heap) (pc : digest.Digest) :
    ∃ s1 s2,
      withExit "io.containerd.runc.v1"
          { heap := h, r := { ParentCheckpoint := pc, Options := Iface.nil } } =
        Outcome.returned none s1 ∧
      withTrackMem "io.containerd.runc.v1" s1 = Outcome.returned none s2 ∧
      s2.r.Options = s1.r.Options ∧
      s2.inst = some { variant := Variant.modern, addr := h.optionsObjs.length,
                       Exit := true, TrackMem := true } ∧
      s2.heap.optionsObjs = h.optionsObjs ++ [{ Exit := true, TrackMem := true }] ∧
      s2.heap.runctypesObjs = h.runctypesObjs ∧
      s2.heap.count = h.count + 1 := by
  have ho : (h.optionsObjs ++ [({ Exit := true } : options.CheckpointOptions)])[h.optionsObjs.length]? =
      some { Exit := true } := by simp
  refine ⟨{ heap := { h with optionsObjs := h.optionsObjs ++ [{ Exit := true }] },
            r := { ParentCheckpoint := pc, Options := Iface.optionsPtr (some h.optionsObjs.length) } },
          _, ?_, withTrackMem_on_modern _ _ h.optionsObjs.length { Exit := true } rfl ho, ?_⟩
  · rw [withExit_empty]; simp
  · simp [State.inst, Heap.count]
    omega

/-! ## Lemmas for the command action and the frame of the mutators -/

/-- The mutators `withExit rt` and `withTrackMem rt2` differ as functions: on
the empty request they set different fields. -/
theorem withExit_ne_withTrackMem (rt rt2 : String) : withExit rt ≠ withTrackMem rt2 := by
  intro h
  have h0 := congrFun h (emptyRequest {})
  simp only [emptyRequest, withExit_empty, withTrackMem_empty] at h0
  split_ifs at h0 <;> simp at h0

/-- The mutator `withExit rt` is not a `setParentCheckpoint c`: on the empty
request it fills the options slot. -/
theorem withExit_ne_setParentCheckpoint (rt c : String) : withExit rt ≠ setParentCheckpoint c := by
  intro h
  have h0 := congrFun h (emptyRequest {})
  simp only [emptyRequest, withExit_empty, setParentCheckpoint] at h0
  split_ifs at h0 <;> simp at h0

/-- The mutator `withTrackMem rt` is not a `setParentCheckpoint c`. -/
theorem withTrackMem_ne_setParentCheckpoint (rt c : String) :
    withTrackMem rt ≠ setParentCheckpoint c := by
  intro h
  have h0 := congrFun h (emptyRequest {})
  simp only [emptyRequest, withTrackMem_empty, setParentCheckpoint] at h0
  split_ifs at h0 <;> simp at h0

/-- Every outcome of `withExit`: a panic in the state it was called in, or a
return of the nil error with the request as it was or with only its options
slot assigned. -/
theorem withExit_outcome (rt : String) (s : State) :
    withExit rt s = Outcome.panicked s ∨
    ∃ s', withExit rt s = Outcome.returned none s' ∧
      s'.r.ParentCheckpoint = s.r.ParentCheckpoint := by
  obtain ⟨hp, pc, opt⟩ := s
  unfold withExit
  split_ifs
  · cases opt with
    | nil => right; exact ⟨_, rfl, rfl⟩
    | other t => left; rfl
    | runctypesPtr p => left; rfl
    | optionsPtr p =>
      cases p with
      | none => left; rfl
      | some a =>
        cases ho : hp.optionsObjs[a]? with
        | none => left; simp [assertOptionsPtr, storeAt, ho]
        | some o => right; simp [assertOptionsPtr, storeAt, ho]
  · cases opt with
    | nil => right; exact ⟨_, rfl, rfl⟩
    | other t => left; rfl
    | optionsPtr p => left; rfl
    | runctypesPtr p =>
      cases p with
      | none => left; rfl
      | some a =>
        cases ho : hp.runctypesObjs[a]? with
        | none => left; simp [assertRunctypesPtr, storeAt, ho]
        | some o => right; simp [assertRunctypesPtr, storeAt, ho]

/-- Every outcome of `withTrackMem`: a panic in the state it was called in, or
a return of the nil error that leaves the parent checkpoint as it was. -/
theorem withTrackMem_outcome (rt : String) (s : State) :
    withTrackMem rt s = Outcome.panicked s ∨
    ∃ s', withTrackMem rt s = Outcome.returned none s' ∧
      s'.r.ParentCheckpoint = s.r.ParentCheckpoint := by
  obtain ⟨hp, pc, opt⟩ := s
  unfold withTrackMem
  split_ifs
  · cases opt with
    | nil => right; exact ⟨_, rfl, rfl⟩
    | other t => left; rfl
    | runctypesPtr p => left; rfl
    | optionsPtr p =>
      cases p with
      | none => left; rfl
      | some a =>
        cases ho : hp.optionsObjs[a]? with
        | none => left; simp [assertOptionsPtr, storeAt, ho]
        | some o => right; simp [assertOptionsPtr, storeAt, ho]
  · cases opt with
    | nil => right; exact ⟨_, rfl, rfl⟩
    | other t => left; rfl
    | runctypesPtr p => left; rfl
    | optionsPtr p =>
      cases p with
      | none => left; rfl
      | some a =>
        cases ho : hp.optionsObjs[a]? with
        | none => left; simp [assertOptionsPtr, storeAt, ho]
        | some o => right; simp [assertOptionsPtr, storeAt, ho]

/-! ## The claims on the command action, on commutation, frames and errors -/

/-- C11: the list the action builds holds `withExit rt` exactly when the exit
flag is set, `withTrackMem rt` exactly when the track-mem flag is set, and
`setParentCheckpoint p` exactly when `p` is not empty; it keeps the order exit,
track-mem, parent; its length is the number of intents supplied; with no
intent it is empty, and applied to the empty request it leaves `Options` nil
and `ParentCheckpoint` empty. -/
theorem buildOpts_contents (context : Context) (rt : String) (h : Heap) :
    (withExit rt ∈ buildOpts context rt ↔ context.exit = true) ∧
    (withTrackMem rt ∈ buildOpts context rt ↔ context.trackMem = true) ∧
    (setParentCheckpoint context.parentCheckpoint ∈ buildOpts context rt ↔
      context.parentCheckpoint ≠ "") ∧
    List.Sublist (buildOpts context rt)
      [withExit rt, withTrackMem rt, setParentCheckpoint context.parentCheckpoint] ∧
    (buildOpts context rt).length =
      (if context.exit = true then 1 else 0) + (if context.trackMem = true then 1 else 0) +
        (if context.parentCheckpoint ≠ "" then 1 else 0) ∧
    buildOpts { context with exit := false, trackMem := false, parentCheckpoint := "" } rt = [] ∧
    ∃ s', applyOpts
        (buildOpts { context with exit := false, trackMem := false, parentCheckpoint := "" } rt)
        (emptyRequest h) = Outcome.returned none s' ∧
      s'.r.Options = Iface.nil ∧ s'.r.ParentCheckpoint.str = "" ∧ s'.heap = h := by
  have h1 := withExit_ne_withTrackMem rt rt
  have h2 := withExit_ne_setParentCheckpoint rt context.parentCheckpoint
  have h3 := withTrackMem_ne_setParentCheckpoint rt context.parentCheckpoint
  have h1s := h1.symm
  have h2s : ∀ c, setParentCheckpoint c ≠ withExit rt :=
    fun c => (withExit_ne_setParentCheckpoint rt c).symm
  have h3s : ∀ c, setParentCheckpoint c ≠ withTrackMem rt :=
    fun c => (withTrackMem_ne_setParentCheckpoint rt c).symm
  refine ⟨?_, ?_, ?_, ?_, ?_, rfl, ⟨_, rfl, rfl, rfl, rfl⟩⟩
  · cases he : context.exit <;> cases ht : context.trackMem <;>
      by_cases hp : context.parentCheckpoint = "" <;> simp [buildOpts, he, ht, hp, h1, h2]
  · cases he : context.exit <;> cases ht : context.trackMem <;>
      by_cases hp : context.parentCheckpoint = "" <;> simp [buildOpts, he, ht, hp, h1s, h3]
  · cases he : context.exit <;> cases ht : context.trackMem <;>
      by_cases hp : context.parentCheckpoint = "" <;> simp [buildOpts, he, ht, hp, h2s, h3s]
  · cases he : context.exit <;> cases ht : context.trackMem <;>
      by_cases hp : context.parentCheckpoint = "" <;> simp [buildOpts, he, ht, hp]
  · cases he : context.exit <;> cases ht : context.trackMem <;>
      by_cases hp : context.parentCheckpoint = "" <;> simp [buildOpts, he, ht, hp]

/-- C12 (Scenario E): when the first positional argument is the empty string,
the action returns the error "container id must be provided" and performs no
step at all: no client, no container load, no lookup, no checkpoint call. -/
theorem empty_id_fails_immediately {Client Container TaskT Image : Type}
    (env : Collaborators Client Container TaskT Image) (context : Context)
    (hid : context.first = "") :
    checkpointCommand.Action env context = ([], some "container id must be provided") := by
  simp [checkpointCommand.Action, hid]

/-- Witness of C12: no argument at all, with both flags set and collaborators
that would all succeed. -/
theorem empty_id_fails_immediately_witness :
    Context.first { exit := true, trackMem := true } = "" ∧
    checkpointCommand.Action succeedingEnv { exit := true, trackMem := true } =
      ([], some "container id must be provided") :=
  ⟨rfl, empty_id_fails_immediately succeedingEnv { exit := true, trackMem := true } rfl⟩

/-- C13: with a non-empty container id, an error of client creation, container
load, task lookup, info lookup or the checkpoint operation is the error the
action returns, the steps performed end with the failing one (and the deferred
cancel once the client exists), the action returns nil only when every
collaborator, the checkpoint operation last, succeeded, and the checkpoint
operation is invoked at most once. -/
theorem collaborator_errors_pass_through {Client Container TaskT Image : Type}
    (env : Collaborators Client Container TaskT Image) (context : Context)
    (hid : context.first ≠ "") :
    (∀ e, env.NewClient context.runtime = Except.error e →
      checkpointCommand.Action env context = ([Call.NewClient context.runtime], some e)) ∧
    (∀ client e, env.NewClient context.runtime = Except.ok client →
      env.LoadContainer client context.first = Except.error e →
      checkpointCommand.Action env context =
        ([Call.NewClient context.runtime, Call.LoadContainer context.first, Call.cancel],
          some e)) ∧
    (∀ client container e, env.NewClient context.runtime = Except.ok client →
      env.LoadContainer client context.first = Except.ok container →
      env.Task container = Except.error e →
      checkpointCommand.Action env context =
        ([Call.NewClient context.runtime, Call.LoadContainer context.first, Call.Task,
          Call.cancel], some e)) ∧
    (∀ client container task e, env.NewClient context.runtime = Except.ok client →
      env.LoadContainer client context.first = Except.ok container →
      env.Task container = Except.ok task →
      env.Info container = Except.error e →
      checkpointCommand.Action env context =
        ([Call.NewClient context.runtime, Call.LoadContainer context.first, Call.Task,
          Call.Info, Call.cancel], some e)) ∧
    (∀ client container task rtName e, env.NewClient context.runtime = Except.ok client →
      env.LoadContainer client context.first = Except.ok container →
      env.Task container = Except.ok task →
      env.Info container = Except.ok rtName →
      env.Checkpoint task (buildOpts context rtName) = Except.error e →
      checkpointCommand.Action env context =
        ([Call.NewClient context.runtime, Call.LoadContainer context.first, Call.Task,
          Call.Info, Call.Checkpoint (buildOpts context rtName), Call.cancel], some e)) ∧
    ((checkpointCommand.Action env context).2 = none →
      ∃ client container task rtName image,
        env.NewClient context.runtime = Except.ok client ∧
        env.LoadContainer client context.first = Except.ok container ∧
        env.Task container = Except.ok task ∧
        env.Info container = Except.ok rtName ∧
        env.Checkpoint task (buildOpts context rtName) = Except.ok image ∧
        checkpointCommand.Action env context =
          ([Call.NewClient context.runtime, Call.LoadContainer context.first, Call.Task,
            Call.Info, Call.Checkpoint (buildOpts context rtName),
            Call.Println (env.Name image), Call.cancel], none)) ∧
    (checkpointCommand.Action env context).1.countP Call.isCheckpoint ≤ 1 := by
  refine ⟨?_, ?_, ?_, ?_, ?_, ?_, ?_⟩
  · intro e h1
    simp [checkpointCommand.Action, hid, h1]
  · intro client e h1 h2
    simp [checkpointCommand.Action, hid, h1, h2]
  · intro client container e h1 h2 h3
    simp [checkpointCommand.Action, hid, h1, h2, h3]
  · intro client container task e h1 h2 h3 h4
    simp [checkpointCommand.Action, hid, h1, h2, h3, h4]
  · intro client container task rtName e h1 h2 h3 h4 h5
    simp [checkpointCommand.Action, hid, h1, h2, h3, h4, h5]
  · intro hnil
    cases h1 : env.NewClient context.runtime with
    | error e => simp [checkpointCommand.Action, hid, h1] at hnil
    | ok client =>
      cases h2 : env.LoadContainer client context.first with
      | error e => simp [checkpointCommand.Action, hid, h1, h2] at hnil
      | ok container =>
        cases h3 : env.Task container with
        | error e => simp [checkpointCommand.Action, hid, h1, h2, h3] at hnil
        | ok task =>
          cases h4 : env.Info container with
          | error e => simp [checkpointCommand.Action, hid, h1, h2, h3, h4] at hnil
          | ok rtName =>
            cases h5 : env.Checkpoint task (buildOpts context rtName) with
            | error e => simp [checkpointCommand.Action, hid, h1, h2, h3, h4, h5] at hnil
            | ok image =>
              refine ⟨client, container, task, rtName, image, rfl, h2, h3, h4, h5, ?_⟩
              simp [checkpointCommand.Action, hid, h1, h2, h3, h4, h5]
  · cases h1 : env.NewClient context.runtime with
    | error e => simp [checkpointCommand.Action, hid, h1, Call.isCheckpoint]
    | ok client =>
      cases h2 : env.LoadContainer client context.first with
      | error e => simp [checkpointCommand.Action, hid, h1, h2, Call.isCheckpoint]
      | ok container =>
        cases h3 : env.Task container with
        | error e => simp [checkpointCommand.Action, hid, h1, h2, h3, Call.isCheckpoint]
        | ok task =>
          cases h4 : env.Info container with
          | error e => simp [checkpointCommand.Action, hid, h1, h2, h3, h4, Call.isCheckpoint]
          | ok rtName =>
            cases h5 : env.Checkpoint task (buildOpts context rtName) with
            | error e =>
              simp [checkpointCommand.Action, hid, h1, h2, h3, h4, h5, Call.isCheckpoint,
                List.countP_cons]
            | ok image =>
              simp [checkpointCommand.Action, hid, h1, h2, h3, h4, h5, Call.isCheckpoint,
                List.countP_cons]

/-- Witness of C13: the container id "c1", the exit flag, and a checkpoint
operation that fails with "criu failed". -/
theorem collaborator_errors_pass_through_witness :
    Context.first { args := ["c1"], exit := true } ≠ "" ∧
    checkpointCommand.Action failingCheckpointEnv { args := ["c1"], exit := true } =
      ([Call.NewClient "", Call.LoadContainer "c1", Call.Task, Call.Info,
        Call.Checkpoint [withExit "io.containerd.runc.v1"], Call.cancel],
        some "criu failed") :=
  ⟨by decide,
    (collaborator_errors_pass_through failingCheckpointEnv { args := ["c1"], exit := true }
      (by decide)).2.2.2.2.1 () () () "io.containerd.runc.v1" "criu failed" rfl rfl rfl rfl rfl⟩

/-- C14 (code defect): for the legacy identifier "io.containerd.runtime.v1.linux"
the two orders end differently on the empty request: `withExit` then
`withTrackMem` panics at the second mutator, while `withTrackMem` then
`withExit` returns with one legacy struct holding both fields true. -/
theorem exit_trackMem_orders_differ_legacy :
    (withExit "io.containerd.runtime.v1.linux" (emptyRequest {}) =
        Outcome.returned none
          { heap := { runctypesObjs := [{ Exit := true }] },
            r := { ParentCheckpoint := ⟨""⟩, Options := Iface.runctypesPtr (some 0) } } ∧
      withTrackMem "io.containerd.runtime.v1.linux"
          { heap := { runctypesObjs := [{ Exit := true }] },
            r := { ParentCheckpoint := ⟨""⟩, Options := Iface.runctypesPtr (some 0) } } =
        Outcome.panicked
          { heap := { runctypesObjs := [{ Exit := true }] },
            r := { ParentCheckpoint := ⟨""⟩, Options := Iface.runctypesPtr (some 0) } }) ∧
    (withTrackMem "io.containerd.runtime.v1.linux" (emptyRequest {}) =
        Outcome.returned none
          { heap := { runctypesObjs := [{ TrackMem := true }] },
            r := { ParentCheckpoint := ⟨""⟩, Options := Iface.runctypesPtr (some 0) } } ∧
      withExit "io.containerd.runtime.v1.linux"
          { heap := { runctypesObjs := [{ TrackMem := true }] },
            r := { ParentCheckpoint := ⟨""⟩, Options := Iface.runctypesPtr (some 0) } } =
        Outcome.returned none
          { heap := { runctypesObjs := [{ Exit := true, TrackMem := true }] },
            r := { ParentCheckpoint := ⟨""⟩, Options := Iface.runctypesPtr (some 0) } }) := by
  decide

/-- C15: `setParentCheckpoint` returns leaving the options slot, the heap and
so the instance (variant and both flags) as they were; and whenever `withExit`
or `withTrackMem` returns, `ParentCheckpoint` is what it was. -/
theorem frame_conditions (rt c : String) (s : State) :
    (∃ t, setParentCheckpoint c s = Outcome.returned none t ∧
      t.r.Options = s.r.Options ∧ t.heap = s.heap ∧ t.inst = s.inst) ∧
    (∀ e s', withExit rt s = Outcome.returned e s' →
      s'.r.ParentCheckpoint = s.r.ParentCheckpoint) ∧
    (∀ e s', withTrackMem rt s = Outcome.returned e s' →
      s'.r.ParentCheckpoint = s.r.ParentCheckpoint) := by
  refine ⟨⟨_, rfl, rfl, rfl, rfl⟩, ?_, ?_⟩
  · intro e s' h
    rcases withExit_outcome rt s with hp | ⟨t, ht, hpc⟩
    · rw [hp] at h
      cases h
    · rw [ht] at h
      injection h with _ hs
      subst hs
      exact hpc
  · intro e s' h
    rcases withTrackMem_outcome rt s with hp | ⟨t, ht, hpc⟩
    · rw [hp] at h
      cases h
    · rw [ht] at h
      injection h with _ hs
      subst hs
      exact hpc

/-- Witness of C15: `withExit` with the modern identifier on a request that
holds a modern instance and the parent checkpoint "sha256:abc123". -/
theorem frame_conditions_witness :
    withExit "io.containerd.runc.v1"
        { heap := { optionsObjs := [{}] },
          r := { ParentCheckpoint := ⟨"sha256:abc123"⟩, Options := Iface.optionsPtr (some 0) } } =
      Outcome.returned none
        { heap := { optionsObjs := [{ Exit := true }] },
          r := { ParentCheckpoint := ⟨"sha256:abc123"⟩, Options := Iface.optionsPtr (some 0) } } ∧
    (⟨"sha256:abc123"⟩ : digest.Digest) = ⟨"sha256:abc123"⟩ :=
  ⟨by decide,
    (frame_conditions "io.containerd.runc.v1" ""
      { heap := { optionsObjs := [{}] },
        r := { ParentCheckpoint := ⟨"sha256:abc123"⟩, Options := Iface.optionsPtr (some 0) } }).2.1
      none
      { heap := { optionsObjs := [{ Exit := true }] },
        r := { ParentCheckpoint := ⟨"sha256:abc123"⟩, Options := Iface.optionsPtr (some 0) } }
      (by decide)⟩

/-- C16 (counterexample): with the modern identifier and an options slot that
holds a nil pointer of the modern type, the type assertion succeeds (its ok
flag is true) and `withExit` panics all the same: a nil-pointer dereference
that is not on a failed type assertion. -/
theorem panic_without_failed_assertion :
    assertOptionsPtr (Iface.optionsPtr none) = (none, true) ∧
    State.wellFormed
        { heap := {}, r := { ParentCheckpoint := ⟨""⟩, Options := Iface.optionsPtr none } } = true ∧
    withExit "io.containerd.runc.v1"
        { heap := {}, r := { ParentCheckpoint := ⟨""⟩, Options := Iface.optionsPtr none } } =
      Outcome.panicked
        { heap := {}, r := { ParentCheckpoint := ⟨""⟩, Options := Iface.optionsPtr none } } := by
  decide

/-- C16 (amended): no mutator returns a non-nil error, `setParentCheckpoint`
always returns, and when `withExit` or `withTrackMem` panics, in the state it
was called in, the pointer it stores through is nil: either its type assertion
failed, or the slot holds a nil pointer of the asserted type. -/
theorem mutators_nil_error_or_nil_pointer_panic (rt c : String) (s : State)
    (hwf : s.wellFormed = true) :
    (∀ e s', withExit rt s = Outcome.returned e s' → e = none) ∧
    (∀ e s', withTrackMem rt s = Outcome.returned e s' → e = none) ∧
    (∃ s', setParentCheckpoint c s = Outcome.returned none s') ∧
    (∀ s', withExit rt s = Outcome.panicked s' →
      s' = s ∧ s.r.Options ≠ Iface.nil ∧
      if rt = "io.containerd.runc.v1" then
        (assertOptionsPtr s.r.Options).2 = false ∨ s.r.Options = Iface.optionsPtr none
      else
        (assertRunctypesPtr s.r.Options).2 = false ∨ s.r.Options = Iface.runctypesPtr none) ∧
    (∀ s', withTrackMem rt s = Outcome.panicked s' →
      s' = s ∧ s.r.Options ≠ Iface.nil ∧
      ((assertOptionsPtr s.r.Options).2 = false ∨ s.r.Options = Iface.optionsPtr none)) := by
  refine ⟨?_, ?_, ⟨_, rfl⟩, ?_, ?_⟩
  · intro e s' h
    rcases withExit_outcome rt s with hp | ⟨t, ht, _⟩
    · rw [hp] at h
      cases h
    · rw [ht] at h
      injection h with he _
      exact he.symm
  · intro e s' h
    rcases withTrackMem_outcome rt s with hp | ⟨t, ht, _⟩
    · rw [hp] at h
      cases h
    · rw [ht] at h
      injection h with he _
      exact he.symm
  · intro s' h
    have hs : s' = s := by
      rcases withExit_outcome rt s with hp | ⟨t, ht, _⟩
      · rw [hp] at h
        injection h with hs
        exact hs.symm
      · rw [ht] at h
        cases h
    subst hs
    obtain ⟨hp, pc, opt⟩ := s'
    by_cases hrt : rt = "io.containerd.runc.v1"
    · cases opt with
      | nil => simp [withExit, hrt, Heap.newOptions] at h
      | other t => simp [hrt, assertOptionsPtr]
      | runctypesPtr p => simp [hrt, assertOptionsPtr]
      | optionsPtr p =>
        cases p with
        | none => simp [hrt]
        | some a =>
          have hlt : a < hp.optionsObjs.length := by simpa [State.wellFormed] using hwf
          simp [withExit, hrt, assertOptionsPtr, storeAt, List.getElem?_eq_getElem hlt] at h
    · cases opt with
      | nil => simp [withExit, hrt, Heap.newRunctypes] at h
      | other t => simp [hrt, assertRunctypesPtr]
      | optionsPtr p => simp [hrt, assertRunctypesPtr]
      | runctypesPtr p =>
        cases p with
        | none => simp [hrt]
        | some a =>
          have hlt : a < hp.runctypesObjs.length := by simpa [State.wellFormed] using hwf
          simp [withExit, hrt, assertRunctypesPtr, storeAt, List.getElem?_eq_getElem hlt] at h
  · intro s' h
    have hs : s' = s := by
      rcases withTrackMem_outcome rt s with hp | ⟨t, ht, _⟩
      · rw [hp] at h
        injection h with hs
        exact hs.symm
      · rw [ht] at h
        cases h
    subst hs
    obtain ⟨hp, pc, opt⟩ := s'
    cases opt with
    | nil =>
      by_cases hrt : rt = "io.containerd.runc.v1"
      · simp [withTrackMem, hrt, Heap.newOptions] at h
      · simp [withTrackMem, hrt, Heap.newRunctypes] at h
    | other t => simp [assertOptionsPtr]
    | runctypesPtr p => simp [assertOptionsPtr]
    | optionsPtr p =>
      cases p with
      | none => simp
      | some a =>
        have hlt : a < hp.optionsObjs.length := by simpa [State.wellFormed] using hwf
        rw [withTrackMem_on_modern rt _ a _ rfl (List.getElem?_eq_getElem hlt)] at h
        cases h

/-- Witness of C16 (amended): the modern identifier on a request that holds a
legacy instance; the panic comes with a failed assertion. -/
theorem mutators_nil_error_or_nil_pointer_panic_witness :
    State.wellFormed
        { heap := { runctypesObjs := [{}] },
          r := { ParentCheckpoint := ⟨""⟩, Options := Iface.runctypesPtr (some 0) } } = true ∧
    withExit "io.containerd.runc.v1"
        { heap := { runctypesObjs := [{}] },
          r := { ParentCheckpoint := ⟨""⟩, Options := Iface.runctypesPtr (some 0) } } =
      Outcome.panicked
        { heap := { runctypesObjs := [{}] },
          r := { ParentCheckpoint := ⟨""⟩, Options := Iface.runctypesPtr (some 0) } } ∧
    ((⟨{ runctypesObjs := [{}] },
        { ParentCheckpoint := ⟨""⟩, Options := Iface.runctypesPtr (some 0) }⟩ : State) =
        ⟨{ runctypesObjs := [{}] },
          { ParentCheckpoint := ⟨""⟩, Options := Iface.runctypesPtr (some 0) }⟩ ∧
      Iface.runctypesPtr (some 0) ≠ Iface.nil ∧
      if "io.containerd.runc.v1" = "io.containerd.runc.v1" then
        (assertOptionsPtr (Iface.runctypesPtr (some 0))).2 = false ∨
          Iface.runctypesPtr (some 0) = Iface.optionsPtr none
      else
        (assertRunctypesPtr (Iface.runctypesPtr (some 0))).2 = false ∨
          Iface.runctypesPtr (some 0) = Iface.runctypesPtr none) :=
  ⟨by decide, by decide,
    (mutators_nil_error_or_nil_pointer_panic "io.containerd.runc.v1" ""
      { heap := { runctypesObjs := [{}] },
        r := { ParentCheckpoint := ⟨""⟩, Options := Iface.runctypesPtr (some 0) } }
      (by decide)).2.2.2.1
      { heap := { runctypesObjs := [{}] },
        r := { ParentCheckpoint := ⟨""⟩, Options := Iface.runctypesPtr (some 0) } }
      (by decide)⟩
